import Mathlib

set_option maxRecDepth 8000

/-!
Shallow embedding of `api_test_project/metrics/metrics_collector.py`
(class `MetricsCollector`) and proofs of the specification claims about it.

Modelling conventions:
* Python floats (timestamps, latencies) are modelled as rationals `ℚ`.
* `collections.deque(maxlen = c)` is modelled as a `List` together with the
  bounded push `pushBounded c` (append, then drop from the front down to `c`).
* The Python `set` `_sse_request_ids` is modelled as a `List String` used only
  through membership.
* `request_id = None` in Python is replaced by the synthetic id the code would
  generate (`f"{endpoint}-{timestamp}"`); operations here take the final
  `String` id.
* The fields used only by the visualisation layer (`results_dir`,
  `_active_requests`, `_session_start_time`, `_sse_requests`,
  `_non_sse_requests`) are omitted: no claim mentions them.
-/

namespace ApiTest

/-- Bounded FIFO push, the behaviour of `deque(maxlen := c).append x`:
append `x` on the right, then evict from the left down to capacity `c`. -/
def pushBounded {α : Type} (c : ℕ) (l : List α) (x : α) : List α :=
  (l ++ [x]).drop (l.length + 1 - c)

/-- One entry of `MetricsCollector._requests` (metrics_collector.py lines 104-114). -/
structure RequestData where
  timestamp : ℚ
  endpoint : String
  method : String
  statusCode : ℤ
  ttft : Option ℚ
  ttct : ℚ
  contentLength : ℕ
  isStream : Bool
  requestId : String
deriving DecidableEq

/-- One entry of `MetricsCollector._stream_metrics` (lines 168-177). -/
structure StreamData where
  timestamp : ℚ
  endpoint : String
  statusCode : ℤ
  ttft : ℚ
  ttct : ℚ
  tokenCount : ℕ
  tokensPerSecond : ℚ
  requestId : String
deriving DecidableEq

/-- One entry of the error multimap `MetricsCollector._errors` (lines 214-219);
the `error_type` key is kept inside the entry, the multimap is the list of all
entries. -/
structure ErrorData where
  errorType : String
  timestamp : ℚ
  message : String
  endpoint : String
deriving DecidableEq

/-- The mutable state of a `MetricsCollector` (lines 44-69). -/
structure CollectorState where
  requests : List RequestData
  streamMetrics : List StreamData
  errors : List ErrorData
  requestTimes : List ℚ
  recentTtfts : List ℚ
  recentTtcts : List ℚ
  successCount : ℕ
  failureCount : ℕ
  timeoutCount : ℕ
  totalTokens : ℕ
  sseEndpoints : List String
  nonSseEndpoints : List String
  sseRequestIds : List String
  totalRequestCount : ℕ

/-- The state of a freshly constructed (or freshly `reset`) collector. -/
def initState : CollectorState :=
  { requests := []
    streamMetrics := []
    errors := []
    requestTimes := []
    recentTtfts := []
    recentTtcts := []
    successCount := 0
    failureCount := 0
    timeoutCount := 0
    totalTokens := 0
    sseEndpoints := []
    nonSseEndpoints := []
    sseRequestIds := []
    totalRequestCount := 0 }

/-- Idempotent insertion into a Python `set` modelled as a list. -/
def insertIfAbsent (x : String) (l : List String) : List String :=
  if x ∈ l then l else x :: l

/-- `MetricsCollector.record_request` (lines 73-137).  Each field update mirrors
one statement of the method body; the success/failure tallies happen only in
the `not is_stream` branch (lines 130-137). -/
def recordRequest (s : CollectorState) (endpoint method : String) (statusCode : ℤ)
    (ttft : Option ℚ) (ttct : ℚ) (contentLength : ℕ) (isStream : Bool)
    (requestId : String) (timestamp : ℚ) : CollectorState :=
  { s with
    requests := s.requests ++
      [⟨timestamp, endpoint, method, statusCode, ttft, ttct, contentLength, isStream, requestId⟩]
    requestTimes := pushBounded 1000 s.requestTimes timestamp
    totalRequestCount := s.totalRequestCount + 1
    recentTtfts :=
      match ttft with
      | some v => pushBounded 100 s.recentTtfts v
      | none => s.recentTtfts
    recentTtcts := pushBounded 100 s.recentTtcts ttct
    sseEndpoints := if isStream then insertIfAbsent endpoint s.sseEndpoints else s.sseEndpoints
    nonSseEndpoints :=
      if isStream then s.nonSseEndpoints else insertIfAbsent endpoint s.nonSseEndpoints
    successCount :=
      if isStream = false ∧ 200 ≤ statusCode ∧ statusCode < 300 then s.successCount + 1
      else s.successCount
    failureCount :=
      if isStream = false ∧ ¬(200 ≤ statusCode ∧ statusCode < 300) then s.failureCount + 1
      else s.failureCount }

/-- `MetricsCollector.record_stream_completion` (lines 139-198).  Token and
latency aggregates are updated unconditionally (lines 179-182); the
success/failure tally and the seen-set insertion happen only when the
`request_id` has not been counted before (lines 188-196). -/
def recordStreamCompletion (s : CollectorState) (endpoint : String) (statusCode : ℤ)
    (ttft ttct : ℚ) (tokenCount : ℕ) (requestId : String) (timestamp : ℚ) : CollectorState :=
  { s with
    streamMetrics := s.streamMetrics ++
      [⟨timestamp, endpoint, statusCode, ttft, ttct, tokenCount,
        if 0 < ttct then (tokenCount : ℚ) / ttct else 0, requestId⟩]
    recentTtfts := pushBounded 100 s.recentTtfts ttft
    recentTtcts := pushBounded 100 s.recentTtcts ttct
    totalTokens := s.totalTokens + tokenCount
    sseEndpoints := insertIfAbsent endpoint s.sseEndpoints
    sseRequestIds :=
      if requestId ∈ s.sseRequestIds then s.sseRequestIds else requestId :: s.sseRequestIds
    successCount :=
      if requestId ∉ s.sseRequestIds ∧ 200 ≤ statusCode ∧ statusCode < 300 then
        s.successCount + 1
      else s.successCount
    failureCount :=
      if requestId ∉ s.sseRequestIds ∧ ¬(200 ≤ statusCode ∧ statusCode < 300) then
        s.failureCount + 1
      else s.failureCount }

/-- `MetricsCollector.record_error` (lines 200-219). -/
def recordError (s : CollectorState) (errorType errorMessage endpoint : String)
    (timestamp : ℚ) : CollectorState :=
  { s with
    timeoutCount := if errorType = "timeout" then s.timeoutCount + 1 else s.timeoutCount
    failureCount := s.failureCount + 1
    errors := s.errors ++ [⟨errorType, timestamp, errorMessage, endpoint⟩] }

/-- `MetricsCollector.get_success_rate` (lines 221-232). -/
def getSuccessRate (s : CollectorState) : ℚ :=
  let total := s.successCount + s.failureCount
  if total = 0 then 0 else (s.successCount : ℚ) / (total : ℚ)

/-- Python `min` over a nonempty list (value on `[]` is irrelevant: the code
guards against the empty case). -/
def listMin : List ℚ → ℚ
  | [] => 0
  | x :: xs => xs.foldl min x

/-- Python `max` over a nonempty list. -/
def listMax : List ℚ → ℚ
  | [] => 0
  | x :: xs => xs.foldl max x

/-- `MetricsCollector.get_current_rps` (lines 234-257), with the current wall
clock `now` passed explicitly. -/
def getCurrentRps (s : CollectorState) (now : ℚ) : ℚ :=
  if s.requestTimes.length < 2 then 0
  else
    let recent := s.requestTimes.filter (fun t => now - t ≤ 60)
    if recent.isEmpty then 0
    else
      let span := now - listMin recent
      if span ≤ 0 then 0 else (recent.length : ℚ) / span

/-- Insertion into an ascending-sorted list. -/
def insertAsc (x : ℚ) : List ℚ → List ℚ
  | [] => [x]
  | y :: ys => if x ≤ y then x :: y :: ys else y :: insertAsc x ys

/-- Ascending insertion sort, modelling `np.sort` on the samples. -/
def sortAsc (l : List ℚ) : List ℚ := l.foldr insertAsc []

/-- `np.percentile(a, q)` with the default linear interpolation: position
`(n-1) * q / 100` into the ascending sort of `a`, interpolating between the two
neighbouring order statistics.  `np.median a = percentile a 50`. -/
def percentile (l : List ℚ) (q : ℚ) : ℚ :=
  let sorted := sortAsc l
  if sorted.isEmpty then 0
  else
    let n := sorted.length
    let pos : ℚ := ((n : ℚ) - 1) * q / 100
    let i : ℕ := (⌊pos⌋).toNat
    let lo := sorted.getD i 0
    let hi := sorted.getD (i + 1) lo
    lo + (pos - (i : ℚ)) * (hi - lo)

/-- One latency-statistics table (the dict built at lines 272-279 resp.
283-290). -/
structure LatencyStats where
  avg : ℚ
  median : ℚ
  p90 : ℚ
  p95 : ℚ
  min : ℚ
  max : ℚ
deriving DecidableEq

/-- The statistics the code computes from a nonempty sample window. -/
def latencyStats (l : List ℚ) : LatencyStats :=
  { avg := l.sum / (l.length : ℚ)
    median := percentile l 50
    p90 := percentile l 90
    p95 := percentile l 95
    min := listMin l
    max := listMax l }

/-- `MetricsCollector.get_recent_latencies` (lines 259-292); an empty Python
dict is modelled as `none`, a populated statistics dict as `some`. -/
def getRecentLatencies (s : CollectorState) : Option LatencyStats × Option LatencyStats :=
  ((if s.recentTtfts.isEmpty then none else some (latencyStats s.recentTtfts)),
   (if s.recentTtcts.isEmpty then none else some (latencyStats s.recentTtcts)))

/-- `MetricsCollector.get_error_summary` (lines 294-302), read at one key: the
number of messages recorded under `errorType`. -/
def getErrorSummary (s : CollectorState) (errorType : String) : ℕ :=
  (s.errors.filter (fun e => e.errorType = errorType)).length

/-- The `TestResult` snapshot built by `get_session_metrics` (lines 322-340). -/
structure TestResult where
  concurrentUsers : ℕ
  successCount : ℕ
  failureCount : ℕ
  totalRequests : ℕ
  timeoutCount : ℕ
  avgTtft : Option ℚ
  avgTtct : Option ℚ
  p50Ttft : Option ℚ
  p90Ttft : Option ℚ
  p95Ttft : Option ℚ
  p50Ttct : Option ℚ
  p90Ttct : Option ℚ
  p95Ttct : Option ℚ
  totalTokens : ℕ
  avgTokensPerSecond : ℚ
  errorTypes : String → ℕ

/-- `MetricsCollector.get_session_metrics` (lines 304-340).  `total_ttct` is
`sum(self._recent_ttcts)` (the `if self._recent_ttcts else 0` guard coincides
with `List.sum [] = 0`). -/
def getSessionMetrics (s : CollectorState) (concurrentUsers : ℕ) : TestResult :=
  let stats := getRecentLatencies s
  let totalTtct : ℚ := s.recentTtcts.sum
  { concurrentUsers := concurrentUsers
    successCount := s.successCount
    failureCount := s.failureCount
    totalRequests := s.totalRequestCount
    timeoutCount := s.timeoutCount
    avgTtft := stats.1.map LatencyStats.avg
    avgTtct := stats.2.map LatencyStats.avg
    p50Ttft := stats.1.map LatencyStats.median
    p90Ttft := stats.1.map LatencyStats.p90
    p95Ttft := stats.1.map LatencyStats.p95
    p50Ttct := stats.2.map LatencyStats.median
    p90Ttct := stats.2.map LatencyStats.p90
    p95Ttct := stats.2.map LatencyStats.p95
    totalTokens := s.totalTokens
    avgTokensPerSecond :=
      if 0 < totalTtct then (s.totalTokens : ℚ) / totalTtct else 0
    errorTypes := getErrorSummary s }

/-- One recording operation offered by the collector's public API. -/
inductive Op where
  | request (endpoint method : String) (statusCode : ℤ) (ttft : Option ℚ) (ttct : ℚ)
      (contentLength : ℕ) (isStream : Bool) (requestId : String) (timestamp : ℚ)
  | streamCompletion (endpoint : String) (statusCode : ℤ) (ttft ttct : ℚ)
      (tokenCount : ℕ) (requestId : String) (timestamp : ℚ)
  | error (errorType message endpoint : String) (timestamp : ℚ)
deriving DecidableEq

/-- Apply one operation to a collector state. -/
def step (s : CollectorState) : Op → CollectorState
  | .request e m sc ttft ttct cl str rid ts => recordRequest s e m sc ttft ttct cl str rid ts
  | .streamCompletion e sc ttft ttct tk rid ts =>
      recordStreamCompletion s e sc ttft ttct tk rid ts
  | .error t msg e ts => recordError s t msg e ts

/-- Run a sequence of operations from a given state. -/
def runFrom (s : CollectorState) (ops : List Op) : CollectorState := ops.foldl step s

/-- Run a sequence of operations from a fresh collector. -/
def run (ops : List Op) : CollectorState := runFrom initState ops

/-- Is this operation a `record_stream_completion` carrying request id `r`? -/
def Op.isScWithId (r : String) : Op → Bool
  | .streamCompletion _ _ _ _ _ rid _ => rid = r
  | _ => false

/-- Does this operation carry request id `r` (as a request or a stream
completion)? -/
def Op.carriesId (r : String) : Op → Bool
  | .request _ _ _ _ _ _ _ rid _ => rid = r
  | .streamCompletion _ _ _ _ _ rid _ => rid = r
  | .error _ _ _ _ => false

/-- Is this operation a `record_request` call? -/
def Op.isRequest : Op → Bool
  | .request _ _ _ _ _ _ _ _ _ => true
  | _ => false

/-- Is this operation a non-streaming `record_request` call? -/
def Op.isNonStreamRequest : Op → Bool
  | .request _ _ _ _ _ _ false _ _ => true
  | _ => false

/-- Is this operation a non-streaming `record_request` with a 2xx status? -/
def Op.isNonStreamSuccess : Op → Bool
  | .request _ _ sc _ _ _ false _ _ => decide (200 ≤ sc ∧ sc < 300)
  | _ => false

/-- Is this operation a non-streaming `record_request` with a non-2xx status? -/
def Op.isNonStreamFailure : Op → Bool
  | .request _ _ sc _ _ _ false _ _ => decide (¬(200 ≤ sc ∧ sc < 300))
  | _ => false

/-- Does this stream completion report a 2xx status? (`false` on other ops.) -/
def Op.scStatus2xx : Op → Bool
  | .streamCompletion _ sc _ _ _ _ _ => decide (200 ≤ sc ∧ sc < 300)
  | _ => false

/-- The token count carried by a stream completion (0 on other ops). -/
def Op.scTokens : Op → ℕ
  | .streamCompletion _ _ _ _ tk _ _ => tk
  | _ => 0

/-- Total increment of `successCount` attributed to the stream completions
carrying id `r`, along a run of `ops` from `s`: the sum, over exactly those
calls, of the change of `successCount` that each one causes. -/
def succIncrFor (r : String) : CollectorState → List Op → ℕ
  | _, [] => 0
  | s, op :: rest =>
      (if Op.isScWithId r op then (step s op).successCount - s.successCount else 0)
        + succIncrFor r (step s op) rest

/-- Total increment of `failureCount` attributed to the stream completions
carrying id `r` along a run of `ops` from `s`. -/
def failIncrFor (r : String) : CollectorState → List Op → ℕ
  | _, [] => 0
  | s, op :: rest =>
      (if Op.isScWithId r op then (step s op).failureCount - s.failureCount else 0)
        + failIncrFor r (step s op) rest

/-- Total increment of `totalTokens` attributed to the stream completions
carrying id `r` along a run of `ops` from `s`. -/
def tokenIncrFor (r : String) : CollectorState → List Op → ℕ
  | _, [] => 0
  | s, op :: rest =>
      (if Op.isScWithId r op then (step s op).totalTokens - s.totalTokens else 0)
        + tokenIncrFor r (step s op) rest

/-- Total increment of `successCount + failureCount` attributed to all
operations carrying id `r` (requests or stream completions) along a run of
`ops` from `s`. -/
def complIncrFor (r : String) : CollectorState → List Op → ℕ
  | _, [] => 0
  | s, op :: rest =>
      (if Op.carriesId r op then
        ((step s op).successCount + (step s op).failureCount)
          - (s.successCount + s.failureCount)
      else 0) + complIncrFor r (step s op) rest

/-- Total increment of `successCount + failureCount` attributed to the stream
completions carrying id `r` along a run of `ops` from `s`. -/
def scComplIncrFor (r : String) : CollectorState → List Op → ℕ
  | _, [] => 0
  | s, op :: rest =>
      (if Op.isScWithId r op then
        ((step s op).successCount + (step s op).failureCount)
          - (s.successCount + s.failureCount)
      else 0) + scComplIncrFor r (step s op) rest

/-- The request id carried by an operation (`""` for error records, which have
none). -/
def Op.ridOf : Op → String
  | .request _ _ _ _ _ _ _ rid _ => rid
  | .streamCompletion _ _ _ _ _ rid _ => rid
  | .error _ _ _ _ => ""

/-! Basic facts about the bounded window. -/

theorem pushBounded_length_le {α : Type} (c : ℕ) (l : List α) (x : α) :
    (pushBounded c l x).length ≤ c := by
  simp only [pushBounded, List.length_drop, List.length_append, List.length_cons,
    List.length_nil]
  omega

/-- Folding the bounded push over fresh samples keeps the suffix that fits the
capacity: from any admissible start `l`, the result is the last `c` elements of
`l ++ xs`. -/
theorem foldl_pushBounded {α : Type} (c : ℕ) :
    ∀ (xs l : List α), l.length ≤ c →
      xs.foldl (pushBounded c) l = (l ++ xs).drop (l.length + xs.length - c) := by
  intro xs
  induction xs with
  | nil =>
      intro l h
      rw [List.foldl_nil, List.append_nil, List.length_nil, Nat.add_zero,
        Nat.sub_eq_zero_of_le h, List.drop_zero]
  | cons x xs ih =>
      intro l h
      rw [List.foldl_cons, ih (pushBounded c l x) (pushBounded_length_le c l x)]
      have hdle : l.length + 1 - c ≤ (l ++ [x]).length := by
        simp only [List.length_append, List.length_cons, List.length_nil]
        omega
      show ((l ++ [x]).drop (l.length + 1 - c) ++ xs).drop _ = _
      rw [← List.drop_append_of_le_length hdle, List.drop_drop]
      have hassoc : l ++ [x] ++ xs = l ++ x :: xs := by simp
      rw [hassoc]
      congr 1
      simp only [pushBounded, List.length_drop, List.length_append, List.length_cons,
        List.length_nil]
      omega

/-! Projections of the three recording operations: one rewriting lemma per
field that the claims use. -/

theorem recordRequest_successCount (s : CollectorState) (e m : String) (sc : ℤ)
    (ttft : Option ℚ) (ttct : ℚ) (cl : ℕ) (str : Bool) (rid : String) (ts : ℚ) :
    (recordRequest s e m sc ttft ttct cl str rid ts).successCount =
      if str = false ∧ 200 ≤ sc ∧ sc < 300 then s.successCount + 1 else s.successCount := rfl

theorem recordRequest_failureCount (s : CollectorState) (e m : String) (sc : ℤ)
    (ttft : Option ℚ) (ttct : ℚ) (cl : ℕ) (str : Bool) (rid : String) (ts : ℚ) :
    (recordRequest s e m sc ttft ttct cl str rid ts).failureCount =
      if str = false ∧ ¬(200 ≤ sc ∧ sc < 300) then s.failureCount + 1 else s.failureCount := rfl

theorem recordRequest_sseRequestIds (s : CollectorState) (e m : String) (sc : ℤ)
    (ttft : Option ℚ) (ttct : ℚ) (cl : ℕ) (str : Bool) (rid : String) (ts : ℚ) :
    (recordRequest s e m sc ttft ttct cl str rid ts).sseRequestIds = s.sseRequestIds := rfl

theorem recordRequest_totalTokens (s : CollectorState) (e m : String) (sc : ℤ)
    (ttft : Option ℚ) (ttct : ℚ) (cl : ℕ) (str : Bool) (rid : String) (ts : ℚ) :
    (recordRequest s e m sc ttft ttct cl str rid ts).totalTokens = s.totalTokens := rfl

theorem recordRequest_totalRequestCount (s : CollectorState) (e m : String) (sc : ℤ)
    (ttft : Option ℚ) (ttct : ℚ) (cl : ℕ) (str : Bool) (rid : String) (ts : ℚ) :
    (recordRequest s e m sc ttft ttct cl str rid ts).totalRequestCount =
      s.totalRequestCount + 1 := rfl

theorem recordRequest_requestTimes (s : CollectorState) (e m : String) (sc : ℤ)
    (ttft : Option ℚ) (ttct : ℚ) (cl : ℕ) (str : Bool) (rid : String) (ts : ℚ) :
    (recordRequest s e m sc ttft ttct cl str rid ts).requestTimes =
      pushBounded 1000 s.requestTimes ts := rfl

theorem recordRequest_recentTtcts (s : CollectorState) (e m : String) (sc : ℤ)
    (ttft : Option ℚ) (ttct : ℚ) (cl : ℕ) (str : Bool) (rid : String) (ts : ℚ) :
    (recordRequest s e m sc ttft ttct cl str rid ts).recentTtcts =
      pushBounded 100 s.recentTtcts ttct := rfl

theorem recordRequest_recentTtfts (s : CollectorState) (e m : String) (sc : ℤ)
    (ttft : Option ℚ) (ttct : ℚ) (cl : ℕ) (str : Bool) (rid : String) (ts : ℚ) :
    (recordRequest s e m sc ttft ttct cl str rid ts).recentTtfts =
      match ttft with
      | some v => pushBounded 100 s.recentTtfts v
      | none => s.recentTtfts := rfl

theorem recordStreamCompletion_successCount (s : CollectorState) (e : String) (sc : ℤ)
    (ttft ttct : ℚ) (tk : ℕ) (rid : String) (ts : ℚ) :
    (recordStreamCompletion s e sc ttft ttct tk rid ts).successCount =
      if rid ∉ s.sseRequestIds ∧ 200 ≤ sc ∧ sc < 300 then s.successCount + 1
      else s.successCount := rfl

theorem recordStreamCompletion_failureCount (s : CollectorState) (e : String) (sc : ℤ)
    (ttft ttct : ℚ) (tk : ℕ) (rid : String) (ts : ℚ) :
    (recordStreamCompletion s e sc ttft ttct tk rid ts).failureCount =
      if rid ∉ s.sseRequestIds ∧ ¬(200 ≤ sc ∧ sc < 300) then s.failureCount + 1
      else s.failureCount := rfl

theorem recordStreamCompletion_sseRequestIds (s : CollectorState) (e : String) (sc : ℤ)
    (ttft ttct : ℚ) (tk : ℕ) (rid : String) (ts : ℚ) :
    (recordStreamCompletion s e sc ttft ttct tk rid ts).sseRequestIds =
      if rid ∈ s.sseRequestIds then s.sseRequestIds else rid :: s.sseRequestIds := rfl

theorem recordStreamCompletion_totalTokens (s : CollectorState) (e : String) (sc : ℤ)
    (ttft ttct : ℚ) (tk : ℕ) (rid : String) (ts : ℚ) :
    (recordStreamCompletion s e sc ttft ttct tk rid ts).totalTokens =
      s.totalTokens + tk := rfl

theorem recordStreamCompletion_totalRequestCount (s : CollectorState) (e : String) (sc : ℤ)
    (ttft ttct : ℚ) (tk : ℕ) (rid : String) (ts : ℚ) :
    (recordStreamCompletion s e sc ttft ttct tk rid ts).totalRequestCount =
      s.totalRequestCount := rfl

theorem recordStreamCompletion_recentTtfts (s : CollectorState) (e : String) (sc : ℤ)
    (ttft ttct : ℚ) (tk : ℕ) (rid : String) (ts : ℚ) :
    (recordStreamCompletion s e sc ttft ttct tk rid ts).recentTtfts =
      pushBounded 100 s.recentTtfts ttft := rfl

theorem recordStreamCompletion_recentTtcts (s : CollectorState) (e : String) (sc : ℤ)
    (ttft ttct : ℚ) (tk : ℕ) (rid : String) (ts : ℚ) :
    (recordStreamCompletion s e sc ttft ttct tk rid ts).recentTtcts =
      pushBounded 100 s.recentTtcts ttct := rfl

theorem recordStreamCompletion_requestTimes (s : CollectorState) (e : String) (sc : ℤ)
    (ttft ttct : ℚ) (tk : ℕ) (rid : String) (ts : ℚ) :
    (recordStreamCompletion s e sc ttft ttct tk rid ts).requestTimes =
      s.requestTimes := rfl

theorem recordError_failureCount (s : CollectorState) (t msg e : String) (ts : ℚ) :
    (recordError s t msg e ts).failureCount = s.failureCount + 1 := rfl

theorem recordError_successCount (s : CollectorState) (t msg e : String) (ts : ℚ) :
    (recordError s t msg e ts).successCount = s.successCount := rfl

theorem recordError_timeoutCount (s : CollectorState) (t msg e : String) (ts : ℚ) :
    (recordError s t msg e ts).timeoutCount =
      if t = "timeout" then s.timeoutCount + 1 else s.timeoutCount := rfl

theorem recordError_errors (s : CollectorState) (t msg e : String) (ts : ℚ) :
    (recordError s t msg e ts).errors = s.errors ++ [⟨t, ts, msg, e⟩] := rfl

theorem recordError_sseRequestIds (s : CollectorState) (t msg e : String) (ts : ℚ) :
    (recordError s t msg e ts).sseRequestIds = s.sseRequestIds := rfl

theorem recordError_totalTokens (s : CollectorState) (t msg e : String) (ts : ℚ) :
    (recordError s t msg e ts).totalTokens = s.totalTokens := rfl

theorem recordError_totalRequestCount (s : CollectorState) (t msg e : String) (ts : ℚ) :
    (recordError s t msg e ts).totalRequestCount = s.totalRequestCount := rfl

theorem recordError_windows (s : CollectorState) (t msg e : String) (ts : ℚ) :
    (recordError s t msg e ts).requestTimes = s.requestTimes ∧
    (recordError s t msg e ts).recentTtfts = s.recentTtfts ∧
    (recordError s t msg e ts).recentTtcts = s.recentTtcts := ⟨rfl, rfl, rfl⟩

/-! How one step affects the seen-set of stream request ids. -/

theorem step_sseRequestIds_mono (s : CollectorState) (op : Op) (r : String)
    (h : r ∈ s.sseRequestIds) : r ∈ (step s op).sseRequestIds := by
  cases op with
  | request e m sc ttft ttct cl str rid ts =>
      rw [step, recordRequest_sseRequestIds]; exact h
  | streamCompletion e sc ttft ttct tk rid ts =>
      rw [step, recordStreamCompletion_sseRequestIds]
      split
      · exact h
      · exact List.mem_cons_of_mem _ h
  | error t msg e ts =>
      rw [step, recordError_sseRequestIds]; exact h

theorem step_sseRequestIds_of_not_sc (s : CollectorState) (op : Op) (r : String)
    (hop : Op.isScWithId r op = false) :
    (r ∈ (step s op).sseRequestIds ↔ r ∈ s.sseRequestIds) := by
  cases op with
  | request e m sc ttft ttct cl str rid ts =>
      rw [step, recordRequest_sseRequestIds]
  | streamCompletion e sc ttft ttct tk rid ts =>
      have hrid : rid ≠ r := by simpa [Op.isScWithId] using hop
      rw [step, recordStreamCompletion_sseRequestIds]
      split
      · exact Iff.rfl
      · simp only [List.mem_cons]
        constructor
        · rintro (he | hm)
          · exact absurd he.symm hrid
          · exact hm
        · exact fun hm => Or.inr hm
  | error t msg e ts =>
      rw [step, recordError_sseRequestIds]

/-! How one stream-completion step affects the tallies, depending on whether
its request id has been counted before. -/

theorem step_counts_of_sc_seen (s : CollectorState) (op : Op) (r : String)
    (hop : Op.isScWithId r op = true) (h : r ∈ s.sseRequestIds) :
    (step s op).successCount = s.successCount ∧
    (step s op).failureCount = s.failureCount := by
  cases op with
  | request e m sc ttft ttct cl str rid ts => simp [Op.isScWithId] at hop
  | error t msg e ts => simp [Op.isScWithId] at hop
  | streamCompletion e sc ttft ttct tk rid ts =>
      have hrid : rid = r := by simpa [Op.isScWithId] using hop
      subst hrid
      rw [step, recordStreamCompletion_successCount, recordStreamCompletion_failureCount]
      simp [h]

theorem step_of_sc_unseen (s : CollectorState) (op : Op) (r : String)
    (hop : Op.isScWithId r op = true) (h : r ∉ s.sseRequestIds) :
    (Op.scStatus2xx op = true →
      (step s op).successCount = s.successCount + 1 ∧
      (step s op).failureCount = s.failureCount) ∧
    (Op.scStatus2xx op = false →
      (step s op).successCount = s.successCount ∧
      (step s op).failureCount = s.failureCount + 1) ∧
    r ∈ (step s op).sseRequestIds := by
  cases op with
  | request e m sc ttft ttct cl str rid ts => simp [Op.isScWithId] at hop
  | error t msg e ts => simp [Op.isScWithId] at hop
  | streamCompletion e sc ttft ttct tk rid ts =>
      have hrid : rid = r := by simpa [Op.isScWithId] using hop
      subst hrid
      rw [step]
      refine ⟨fun h2 => ?_, fun h2 => ?_, ?_⟩
      · have hsc : 200 ≤ sc ∧ sc < 300 := by simpa [Op.scStatus2xx] using h2
        rw [recordStreamCompletion_successCount, recordStreamCompletion_failureCount]
        simp [h, hsc]
      · have hsc : ¬(200 ≤ sc ∧ sc < 300) := by simpa [Op.scStatus2xx] using h2
        rw [recordStreamCompletion_successCount, recordStreamCompletion_failureCount]
        simp [h, hsc]
      · rw [recordStreamCompletion_sseRequestIds]
        simp [h]

theorem step_totalTokens_of_sc (s : CollectorState) (op : Op) (r : String)
    (hop : Op.isScWithId r op = true) :
    (step s op).totalTokens = s.totalTokens + Op.scTokens op := by
  cases op with
  | request e m sc ttft ttct cl str rid ts => simp [Op.isScWithId] at hop
  | error t msg e ts => simp [Op.isScWithId] at hop
  | streamCompletion e sc ttft ttct tk rid ts =>
      rw [step, recordStreamCompletion_totalTokens, Op.scTokens]

/-! Trace-level lemmas: the per-request-id attribution of counter increments
along a whole run. -/

theorem incrFor_of_seen (r : String) :
    ∀ (ops : List Op) (s : CollectorState), r ∈ s.sseRequestIds →
      succIncrFor r s ops = 0 ∧ failIncrFor r s ops = 0 ∧ scComplIncrFor r s ops = 0 := by
  intro ops
  induction ops with
  | nil => exact fun s _ => ⟨rfl, rfl, rfl⟩
  | cons op rest ih =>
      intro s h
      obtain ⟨ihs, ihf, ihc⟩ := ih (step s op) (step_sseRequestIds_mono s op r h)
      by_cases hop : Op.isScWithId r op = true
      · obtain ⟨hsucc, hfail⟩ := step_counts_of_sc_seen s op r hop h
        rw [succIncrFor, failIncrFor, scComplIncrFor]
        simp [hop, hsucc, hfail, ihs, ihf, ihc]
      · rw [succIncrFor, failIncrFor, scComplIncrFor]
        simp [hop, ihs, ihf, ihc]

theorem succIncrFor_of_unseen (r : String) :
    ∀ (ops : List Op) (s : CollectorState), r ∉ s.sseRequestIds →
      (∀ op ∈ ops, Op.isScWithId r op = true → Op.scStatus2xx op = true) →
      succIncrFor r s ops = (if ops.any (Op.isScWithId r) then 1 else 0) ∧
      failIncrFor r s ops = 0 := by
  intro ops
  induction ops with
  | nil => exact fun s _ _ => ⟨rfl, rfl⟩
  | cons op rest ih =>
      intro s h hall
      by_cases hop : Op.isScWithId r op = true
      · have h2 : Op.scStatus2xx op = true := hall op (List.mem_cons_self op rest) hop
        obtain ⟨hcounts, _, hmem⟩ := step_of_sc_unseen s op r hop h
        obtain ⟨hsucc, hfail⟩ := hcounts h2
        obtain ⟨ihs, ihf, _⟩ := incrFor_of_seen r rest (step s op) hmem
        rw [succIncrFor, failIncrFor]
        simp [hop, hsucc, hfail, ihs, ihf, List.any_cons]
      · have h' : r ∉ (step s op).sseRequestIds := fun hc =>
          h ((step_sseRequestIds_of_not_sc s op r (by simpa using hop)).mp hc)
        obtain ⟨ihs, ihf⟩ := ih (step s op) h'
          (fun o ho => hall o (List.mem_cons_of_mem op ho))
        rw [succIncrFor, failIncrFor]
        simp [hop, ihs, ihf, List.any_cons]

theorem scComplIncrFor_of_unseen (r : String) :
    ∀ (ops : List Op) (s : CollectorState), r ∉ s.sseRequestIds →
      scComplIncrFor r s ops ≤ 1 := by
  intro ops
  induction ops with
  | nil => exact fun s _ => Nat.zero_le 1
  | cons op rest ih =>
      intro s h
      by_cases hop : Op.isScWithId r op = true
      · obtain ⟨h2xx, hnot2xx, hmem⟩ := step_of_sc_unseen s op r hop h
        obtain ⟨_, _, ihc⟩ := incrFor_of_seen r rest (step s op) hmem
        have hdelta :
            (step s op).successCount + (step s op).failureCount =
              s.successCount + s.failureCount + 1 := by
          rcases Bool.eq_false_or_eq_true (Op.scStatus2xx op) with hb | hb
          · obtain ⟨hs', hf'⟩ := h2xx hb; omega
          · obtain ⟨hs', hf'⟩ := hnot2xx hb; omega
        rw [scComplIncrFor]
        simp [hop, hdelta, ihc]
      · have h' : r ∉ (step s op).sseRequestIds := fun hc =>
          h ((step_sseRequestIds_of_not_sc s op r (by simpa using hop)).mp hc)
        have ihc := ih (step s op) h'
        rw [scComplIncrFor]
        simpa [hop] using ihc

theorem tokenIncrFor_eq (r : String) :
    ∀ (ops : List Op) (s : CollectorState),
      tokenIncrFor r s ops = ((ops.filter (Op.isScWithId r)).map Op.scTokens).sum := by
  intro ops
  induction ops with
  | nil => exact fun s => rfl
  | cons op rest ih =>
      intro s
      by_cases hop : Op.isScWithId r op = true
      · have htok := step_totalTokens_of_sc s op r hop
        rw [tokenIncrFor]
        simp [hop, htok, ih (step s op), List.filter_cons]
      · rw [tokenIncrFor]
        simp [hop, ih (step s op), List.filter_cons]

/-! Closed forms of the session counters over request-only traces and over
arbitrary traces. -/

theorem runFrom_request_counts :
    ∀ (ops : List Op) (s : CollectorState), (∀ op ∈ ops, Op.isRequest op = true) →
      (runFrom s ops).successCount =
        s.successCount + (ops.filter Op.isNonStreamSuccess).length ∧
      (runFrom s ops).failureCount =
        s.failureCount + (ops.filter Op.isNonStreamFailure).length := by
  intro ops
  induction ops with
  | nil => exact fun s _ => ⟨rfl, rfl⟩
  | cons op rest ih =>
      intro s hall
      obtain ⟨ihs, ihf⟩ := ih (step s op) (fun o ho => hall o (List.mem_cons_of_mem op ho))
      cases op with
      | streamCompletion e sc ttft ttct tk rid ts =>
          have := hall _ (List.mem_cons_self _ rest)
          simp [Op.isRequest] at this
      | error t msg e ts =>
          have := hall _ (List.mem_cons_self _ rest)
          simp [Op.isRequest] at this
      | request e m sc ttft ttct cl str rid ts =>
          rw [show runFrom s (Op.request e m sc ttft ttct cl str rid ts :: rest) =
                runFrom (step s (Op.request e m sc ttft ttct cl str rid ts)) rest from rfl,
            ihs, ihf, step, recordRequest_successCount, recordRequest_failureCount]
          cases str with
          | true =>
              simp [Op.isNonStreamSuccess, Op.isNonStreamFailure, List.filter_cons]
          | false =>
              by_cases h2 : 200 ≤ sc ∧ sc < 300
              · simp [Op.isNonStreamSuccess, Op.isNonStreamFailure, List.filter_cons, h2]
                omega
              · simp [Op.isNonStreamSuccess, Op.isNonStreamFailure, List.filter_cons, h2]
                omega

theorem filter_success_add_failure (ops : List Op) :
    (ops.filter Op.isNonStreamSuccess).length + (ops.filter Op.isNonStreamFailure).length =
      (ops.filter Op.isNonStreamRequest).length := by
  induction ops with
  | nil => rfl
  | cons op rest ih =>
      cases op with
      | streamCompletion e sc ttft ttct tk rid ts =>
          simpa [Op.isNonStreamSuccess, Op.isNonStreamFailure, Op.isNonStreamRequest,
            List.filter_cons] using ih
      | error t msg e ts =>
          simpa [Op.isNonStreamSuccess, Op.isNonStreamFailure, Op.isNonStreamRequest,
            List.filter_cons] using ih
      | request e m sc ttft ttct cl str rid ts =>
          cases str with
          | true =>
              simpa [Op.isNonStreamSuccess, Op.isNonStreamFailure, Op.isNonStreamRequest,
                List.filter_cons] using ih
          | false =>
              by_cases h2 : 200 ≤ sc ∧ sc < 300 <;>
                · simp [Op.isNonStreamSuccess, Op.isNonStreamFailure, Op.isNonStreamRequest,
                    List.filter_cons, h2]
                  omega

theorem runFrom_totalRequestCount :
    ∀ (ops : List Op) (s : CollectorState),
      (runFrom s ops).totalRequestCount =
        s.totalRequestCount + (ops.filter Op.isRequest).length := by
  intro ops
  induction ops with
  | nil => exact fun s => rfl
  | cons op rest ih =>
      intro s
      rw [runFrom, List.foldl_cons]
      rw [show List.foldl step (step s op) rest = runFrom (step s op) rest from rfl, ih]
      cases op with
      | request e m sc ttft ttct cl str rid ts =>
          rw [step, recordRequest_totalRequestCount]
          simp [Op.isRequest, List.filter_cons]
          omega
      | streamCompletion e sc ttft ttct tk rid ts =>
          rw [step, recordStreamCompletion_totalRequestCount]
          simp [Op.isRequest, List.filter_cons]
      | error t msg e ts =>
          rw [step, recordError_totalRequestCount]
          simp [Op.isRequest, List.filter_cons]

theorem runFrom_window_bounds :
    ∀ (ops : List Op) (s : CollectorState),
      s.requestTimes.length ≤ 1000 → s.recentTtfts.length ≤ 100 →
      s.recentTtcts.length ≤ 100 →
      (runFrom s ops).requestTimes.length ≤ 1000 ∧
      (runFrom s ops).recentTtfts.length ≤ 100 ∧
      (runFrom s ops).recentTtcts.length ≤ 100 := by
  intro ops
  induction ops with
  | nil => exact fun s h1 h2 h3 => ⟨h1, h2, h3⟩
  | cons op rest ih =>
      intro s h1 h2 h3
      rw [runFrom, List.foldl_cons]
      rw [show List.foldl step (step s op) rest = runFrom (step s op) rest from rfl]
      refine ih (step s op) ?_ ?_ ?_
      · cases op with
        | request e m sc ttft ttct cl str rid ts =>
            rw [step, recordRequest_requestTimes]; exact pushBounded_length_le _ _ _
        | streamCompletion e sc ttft ttct tk rid ts =>
            rw [step, recordStreamCompletion_requestTimes]; exact h1
        | error t msg e ts =>
            rw [step, (recordError_windows s t msg e ts).1]; exact h1
      · cases op with
        | request e m sc ttft ttct cl str rid ts =>
            rw [step, recordRequest_recentTtfts]
            cases ttft with
            | some v => exact pushBounded_length_le _ _ _
            | none => exact h2
        | streamCompletion e sc ttft ttct tk rid ts =>
            rw [step, recordStreamCompletion_recentTtfts]; exact pushBounded_length_le _ _ _
        | error t msg e ts =>
            rw [step, (recordError_windows s t msg e ts).2.1]; exact h2
      · cases op with
        | request e m sc ttft ttct cl str rid ts =>
            rw [step, recordRequest_recentTtcts]; exact pushBounded_length_le _ _ _
        | streamCompletion e sc ttft ttct tk rid ts =>
            rw [step, recordStreamCompletion_recentTtcts]; exact pushBounded_length_le _ _ _
        | error t msg e ts =>
            rw [step, (recordError_windows s t msg e ts).2.2]; exact h3

/-! The claim theorems. -/

/-- C1: along any run from a fresh collector, if `record_stream_completion` is
called two or more times with the same `request_id` `r`, every such call with a
status code in `[200, 300)`, then those calls increment `success_count` exactly
once in total and `failure_count` not at all, while each call (repeats
included) still adds its `token_count` to the total-token aggregate. -/
theorem C1_stream_completion_success_counted_once (ops : List Op) (r : String)
    (hall : ∀ op ∈ ops, Op.isScWithId r op = true → Op.scStatus2xx op = true)
    (htwo : 2 ≤ (ops.filter (Op.isScWithId r)).length) :
    succIncrFor r initState ops = 1 ∧ failIncrFor r initState ops = 0 ∧
    tokenIncrFor r initState ops =
      ((ops.filter (Op.isScWithId r)).map Op.scTokens).sum := by
  have hne : ops.filter (Op.isScWithId r) ≠ [] := by
    intro hemp
    rw [hemp] at htwo
    simp at htwo
  obtain ⟨op, hopmem⟩ := List.exists_mem_of_ne_nil _ hne
  obtain ⟨hopin, hoppred⟩ := List.mem_filter.mp hopmem
  have hany : ops.any (Op.isScWithId r) = true := List.any_eq_true.mpr ⟨op, hopin, hoppred⟩
  obtain ⟨hs, hf⟩ := succIncrFor_of_unseen r ops initState (by simp [initState]) hall
  exact ⟨by rw [hs, if_pos hany], hf, tokenIncrFor_eq r ops initState⟩

/-- Witness for C1: two completions with id `"r"`, status 200 and token counts
30 and 20 yield one success increment, no failure increment, and 50 tokens. -/
theorem C1_witness :
    succIncrFor "r" initState
        [Op.streamCompletion "/chat" 200 1 2 30 "r" 0,
         Op.streamCompletion "/chat" 200 1 2 20 "r" 1] = 1 ∧
    failIncrFor "r" initState
        [Op.streamCompletion "/chat" 200 1 2 30 "r" 0,
         Op.streamCompletion "/chat" 200 1 2 20 "r" 1] = 0 ∧
    tokenIncrFor "r" initState
        [Op.streamCompletion "/chat" 200 1 2 30 "r" 0,
         Op.streamCompletion "/chat" 200 1 2 20 "r" 1] = 50 := by
  have h := C1_stream_completion_success_counted_once
    [Op.streamCompletion "/chat" 200 1 2 30 "r" 0,
     Op.streamCompletion "/chat" 200 1 2 20 "r" 1] "r" (by decide) (by decide)
  exact ⟨h.1, h.2.1, h.2.2.trans (by decide)⟩

/-- C2 as stated is false on the code: two non-streaming `record_request`
calls with the same `request_id` `"r"` and status 200 change
`success_count + failure_count` attributed to `"r"` by 2, not by at most 1
(the seen-set is consulted only by `record_stream_completion`). -/
theorem C2_counterexample :
    complIncrFor "r" initState
      [Op.request "/e" "GET" 200 none 1 0 false "r" 0,
       Op.request "/e" "GET" 200 none 1 0 false "r" 1] = 2 ∧ ¬(2 : ℕ) ≤ 1 := by
  exact ⟨by decide, by decide⟩

/-- C2 (amended): the idempotency guard covers `record_stream_completion`
alone: along any run from a fresh collector, the stream-completion calls
carrying a given `request_id` change `success_count + failure_count` by at
most 1 in total, however often completion is reported. -/
theorem C2_stream_completions_counted_at_most_once (ops : List Op) (r : String) :
    scComplIncrFor r initState ops ≤ 1 :=
  scComplIncrFor_of_unseen r ops initState (by simp [initState])

/-- C3: starting from a fresh collector, a request-only trace with pairwise
distinct request ids tallies `success_count` as the number of non-streaming
calls with a 2xx status, `failure_count` as the number of non-streaming calls
with another status, and their sum as the number of non-streaming calls
(streaming `record_request` calls tally nothing). -/
theorem C3_request_only_tallies (ops : List Op)
    (hreq : ∀ op ∈ ops, Op.isRequest op = true)
    (_hdistinct : (ops.map Op.ridOf).Nodup) :
    (run ops).successCount = (ops.filter Op.isNonStreamSuccess).length ∧
    (run ops).failureCount = (ops.filter Op.isNonStreamFailure).length ∧
    (run ops).successCount + (run ops).failureCount =
      (ops.filter Op.isNonStreamRequest).length := by
  obtain ⟨hs, hf⟩ := runFrom_request_counts ops initState hreq
  have h0s : initState.successCount = 0 := rfl
  have h0f : initState.failureCount = 0 := rfl
  have hpart := filter_success_add_failure ops
  rw [run]
  refine ⟨by omega, by omega, by omega⟩

/-- Witness for C3: three non-streaming requests with status codes 200, 200,
500 yield two successes, one failure, and success rate 2/3. -/
theorem C3_witness :
    (run [Op.request "/a" "GET" 200 none 1 0 false "a" 0,
          Op.request "/a" "GET" 200 none 1 0 false "b" 1,
          Op.request "/a" "GET" 500 none 1 0 false "c" 2]).successCount = 2 ∧
    (run [Op.request "/a" "GET" 200 none 1 0 false "a" 0,
          Op.request "/a" "GET" 200 none 1 0 false "b" 1,
          Op.request "/a" "GET" 500 none 1 0 false "c" 2]).failureCount = 1 ∧
    getSuccessRate
      (run [Op.request "/a" "GET" 200 none 1 0 false "a" 0,
            Op.request "/a" "GET" 200 none 1 0 false "b" 1,
            Op.request "/a" "GET" 500 none 1 0 false "c" 2]) = 2/3 := by
  have h := C3_request_only_tallies
    [Op.request "/a" "GET" 200 none 1 0 false "a" 0,
     Op.request "/a" "GET" 200 none 1 0 false "b" 1,
     Op.request "/a" "GET" 500 none 1 0 false "c" 2] (by decide) (by decide)
  have h2 : (run [Op.request "/a" "GET" 200 none 1 0 false "a" 0,
      Op.request "/a" "GET" 200 none 1 0 false "b" 1,
      Op.request "/a" "GET" 500 none 1 0 false "c" 2]).successCount = 2 :=
    h.1.trans (by decide)
  have h1 : (run [Op.request "/a" "GET" 200 none 1 0 false "a" 0,
      Op.request "/a" "GET" 200 none 1 0 false "b" 1,
      Op.request "/a" "GET" 500 none 1 0 false "c" 2]).failureCount = 1 :=
    h.2.1.trans (by decide)
  refine ⟨h2, h1, ?_⟩
  simp only [getSuccessRate, h2, h1]
  norm_num

/-- C4: in every collector state, `get_success_rate` returns 0 when no
completion has been tallied (in particular on a fresh collector) and
`success_count / (success_count + failure_count)` otherwise; it is a total
function, so it never raises and never divides by zero. -/
theorem C4_success_rate_guarded (s : CollectorState) :
    (s.successCount + s.failureCount = 0 → getSuccessRate s = 0) ∧
    (s.successCount + s.failureCount ≠ 0 →
      getSuccessRate s =
        (s.successCount : ℚ) / ((s.successCount : ℚ) + (s.failureCount : ℚ))) ∧
    getSuccessRate initState = 0 := by
  refine ⟨fun h => ?_, fun h => ?_, rfl⟩
  · simp [getSuccessRate, h]
  · simp only [getSuccessRate]
    rw [if_neg h]
    push_cast
    rfl

/-- Witness for C4 at a fresh collector and at a one-success state. -/
theorem C4_witness :
    getSuccessRate initState = 0 ∧
    getSuccessRate (run [Op.request "/a" "GET" 200 none 1 0 false "a" 0]) = 1 := by
  refine ⟨(C4_success_rate_guarded initState).1 rfl, ?_⟩
  have h := (C4_success_rate_guarded
    (run [Op.request "/a" "GET" 200 none 1 0 false "a" 0])).2.1 (by decide)
  rw [h, show (run [Op.request "/a" "GET" 200 none 1 0 false "a" 0]).successCount = 1
      from by decide,
    show (run [Op.request "/a" "GET" 200 none 1 0 false "a" 0]).failureCount = 0
      from by decide]
  norm_num

/-- C5: a bounded window of capacity `c` filled with `c + k` samples keeps
exactly `c` of them, namely the `(k+1)`-th through `(c+k)`-th in insertion
order (FIFO eviction); consequently the collector's request-timestamp window
never exceeds 1000 entries and the TTFT/TTCT windows never exceed 100. -/
theorem C5_window_capacity_fifo (c k : ℕ) (xs : List ℚ) (h : xs.length = c + k) :
    xs.foldl (pushBounded c) [] = xs.drop k ∧
    (xs.foldl (pushBounded c) []).length = c ∧
    ∀ ops : List Op,
      (run ops).requestTimes.length ≤ 1000 ∧
      (run ops).recentTtfts.length ≤ 100 ∧
      (run ops).recentTtcts.length ≤ 100 := by
  have hfold := foldl_pushBounded c xs [] (Nat.zero_le c)
  simp only [List.nil_append, List.length_nil, Nat.zero_add] at hfold
  have hk : xs.length - c = k := by omega
  refine ⟨by rw [hfold, hk], by rw [hfold, hk, List.length_drop]; omega, fun ops => ?_⟩
  exact runFrom_window_bounds ops initState (by simp [initState]) (by simp [initState])
    (by simp [initState])

/-- Witness for C5 at capacity 3 and five inserted samples: the last three
remain. -/
theorem C5_witness :
    [(1 : ℚ), 2, 3, 4, 5].foldl (pushBounded 3) [] = [(1 : ℚ), 2, 3, 4, 5].drop 2 ∧
    ([(1 : ℚ), 2, 3, 4, 5].foldl (pushBounded 3) []).length = 3 := by
  have h := C5_window_capacity_fifo 3 2 [(1 : ℚ), 2, 3, 4, 5] (by decide)
  exact ⟨h.1, h.2.1⟩

/-- C6: in every collector state, the `avg_tokens_per_second` field of the
session snapshot equals the accumulated token total divided by the sum of the
samples in the recent TTCT window when that sum is positive, and 0 otherwise;
after a single stream completion with `ttft = 0.2`, `ttct = 1.0` and
`token_count = 50` on a fresh collector it equals 50. -/
theorem C6_avg_tokens_per_second (s : CollectorState) (u : ℕ) :
    (0 < s.recentTtcts.sum →
      (getSessionMetrics s u).avgTokensPerSecond =
        (s.totalTokens : ℚ) / s.recentTtcts.sum) ∧
    (s.recentTtcts.sum ≤ 0 → (getSessionMetrics s u).avgTokensPerSecond = 0) ∧
    (getSessionMetrics
        (run [Op.streamCompletion "/chat" 200 (1/5) 1 50 "r1" 0]) u).avgTokensPerSecond
      = 50 := by
  refine ⟨fun h => ?_, fun h => ?_, ?_⟩
  · simp only [getSessionMetrics]
    rw [if_pos h]
  · simp only [getSessionMetrics]
    rw [if_neg (not_lt.mpr h)]
  · have hc : (run [Op.streamCompletion "/chat" 200 (1/5) 1 50 "r1" 0]).recentTtcts
        = [1] := by decide
    have ht : (run [Op.streamCompletion "/chat" 200 (1/5) 1 50 "r1" 0]).totalTokens
        = 50 := by decide
    simp only [getSessionMetrics, hc, ht]
    norm_num

/-- Witness for C6 after one stream completion carrying 50 tokens over a 1.0s
TTCT. -/
theorem C6_witness :
    (getSessionMetrics
        (run [Op.streamCompletion "/chat" 200 (1/5) 1 50 "r1" 0]) 1).avgTokensPerSecond
      = ((run [Op.streamCompletion "/chat" 200 (1/5) 1 50 "r1" 0]).totalTokens : ℚ)
        / (run [Op.streamCompletion "/chat" 200 (1/5) 1 50 "r1" 0]).recentTtcts.sum :=
  (C6_avg_tokens_per_second
    (run [Op.streamCompletion "/chat" 200 (1/5) 1 50 "r1" 0]) 1).1
    (by
      rw [show (run [Op.streamCompletion "/chat" 200 (1/5) 1 50 "r1" 0]).recentTtcts
          = [1] from by decide]
      norm_num)

/-- C7: `record_error` appends one entry to the error multimap under its
`error_type`, always increments `failure_count` by exactly 1, and increments
the timeout counter by exactly 1 if and only if the type is `"timeout"`; two
timeout errors on a fresh collector leave the summary at 2 for `"timeout"`
(and 0 for every other type) with `failure_count` increased by 2. -/
theorem C7_record_error_effects (s : CollectorState) (etype msg ep : String) (ts : ℚ) :
    ((recordError s etype msg ep ts).errors = s.errors ++ [⟨etype, ts, msg, ep⟩]) ∧
    ((recordError s etype msg ep ts).failureCount = s.failureCount + 1) ∧
    (etype = "timeout" →
      (recordError s etype msg ep ts).timeoutCount = s.timeoutCount + 1) ∧
    (etype ≠ "timeout" →
      (recordError s etype msg ep ts).timeoutCount = s.timeoutCount) ∧
    getErrorSummary
      (recordError (recordError initState "timeout" "msg" "/x" 0) "timeout" "msg2" "/x" 1)
      "timeout" = 2 ∧
    (recordError (recordError initState "timeout" "msg" "/x" 0) "timeout" "msg2" "/x" 1).failureCount
      = initState.failureCount + 2 ∧
    (∀ t, t ≠ "timeout" →
      getErrorSummary
        (recordError (recordError initState "timeout" "msg" "/x" 0) "timeout" "msg2" "/x" 1)
        t = 0) := by
  refine ⟨recordError_errors s etype msg ep ts, recordError_failureCount s etype msg ep ts,
    fun h => ?_, fun h => ?_, by decide, by decide, fun t ht => ?_⟩
  · rw [recordError_timeoutCount, if_pos h]
  · rw [recordError_timeoutCount, if_neg h]
  · simp [getErrorSummary, recordError, initState, List.filter_cons, ht.symm]

/-- Witness for C7 at a timeout error and at a non-timeout error. -/
theorem C7_witness :
    (recordError initState "timeout" "m" "/x" 0).timeoutCount
      = initState.timeoutCount + 1 ∧
    (recordError initState "network" "m" "/x" 0).timeoutCount
      = initState.timeoutCount :=
  ⟨(C7_record_error_effects initState "timeout" "m" "/x" 0).2.2.1 rfl,
   (C7_record_error_effects initState "network" "m" "/x" 0).2.2.2.1 (by decide)⟩

/-- C8 as stated is false on the code: with one old and one recent timestamp
in the buffer, only one sample lies in the trailing 60-second window, yet
`get_current_rps` returns `1 / span = 1/10`, not 0 (the fewer-than-2 guard
tests the whole buffer, not the in-window samples). -/
theorem C8_counterexample :
    (((run [Op.request "/a" "GET" 200 none 1 0 false "a" 0,
            Op.request "/a" "GET" 200 none 1 0 false "b" 90]).requestTimes.filter
        (fun t => (100 : ℚ) - t ≤ 60)).length < 2) ∧
    getCurrentRps
        (run [Op.request "/a" "GET" 200 none 1 0 false "a" 0,
              Op.request "/a" "GET" 200 none 1 0 false "b" 90]) 100 = 1/10 ∧
    (1/10 : ℚ) ≠ 0 := by
  have hreq : (run [Op.request "/a" "GET" 200 none 1 0 false "a" 0,
      Op.request "/a" "GET" 200 none 1 0 false "b" 90]).requestTimes
        = [(0 : ℚ), 90] := by decide
  refine ⟨?_, ?_, by norm_num⟩
  · rw [hreq]
    norm_num [List.filter_cons]
  · rw [getCurrentRps, hreq]
    norm_num [List.filter_cons, listMin]

/-- C8 (amended): `get_current_rps` returns 0 when the whole timestamp buffer
holds fewer than 2 entries, when no buffered timestamp lies within the
trailing 60-second window, or when the span from the oldest in-window
timestamp to now is not positive; otherwise it returns the in-window count
divided by that span — even when only one buffered timestamp is in the
window. -/
theorem C8_amended_rps (s : CollectorState) (now : ℚ) :
    (s.requestTimes.length < 2 → getCurrentRps s now = 0) ∧
    (2 ≤ s.requestTimes.length →
      (s.requestTimes.filter (fun t => now - t ≤ 60)).isEmpty = true →
      getCurrentRps s now = 0) ∧
    (2 ≤ s.requestTimes.length →
      (s.requestTimes.filter (fun t => now - t ≤ 60)).isEmpty = false →
      now - listMin (s.requestTimes.filter (fun t => now - t ≤ 60)) ≤ 0 →
      getCurrentRps s now = 0) ∧
    (2 ≤ s.requestTimes.length →
      (s.requestTimes.filter (fun t => now - t ≤ 60)).isEmpty = false →
      0 < now - listMin (s.requestTimes.filter (fun t => now - t ≤ 60)) →
      getCurrentRps s now =
        ((s.requestTimes.filter (fun t => now - t ≤ 60)).length : ℚ)
          / (now - listMin (s.requestTimes.filter (fun t => now - t ≤ 60)))) := by
  refine ⟨fun h1 => ?_, fun h1 h2 => ?_, fun h1 h2 h3 => ?_, fun h1 h2 h3 => ?_⟩
  · simp only [getCurrentRps]
    rw [if_pos h1]
  · simp only [getCurrentRps]
    rw [if_neg (by omega), if_pos h2]
  · simp only [getCurrentRps]
    rw [if_neg (by omega), if_neg (by rw [h2]; decide), if_pos h3]
  · simp only [getCurrentRps]
    rw [if_neg (by omega), if_neg (by rw [h2]; decide), if_neg (not_le.mpr h3)]


/-- Witness for C8 (amended) at buffer timestamps 0 and 90 with now = 100:
only the timestamp 90 is in the window, and the returned rate is the
in-window count over the span. -/
theorem C8_witness :
    getCurrentRps
        (run [Op.request "/a" "GET" 200 none 1 0 false "a" 0,
              Op.request "/a" "GET" 200 none 1 0 false "b" 90]) 100 =
      (((run [Op.request "/a" "GET" 200 none 1 0 false "a" 0,
              Op.request "/a" "GET" 200 none 1 0 false "b" 90]).requestTimes.filter
          (fun t => (100 : ℚ) - t ≤ 60)).length : ℚ)
        / (100 - listMin ((run [Op.request "/a" "GET" 200 none 1 0 false "a" 0,
              Op.request "/a" "GET" 200 none 1 0 false "b" 90]).requestTimes.filter
          (fun t => (100 : ℚ) - t ≤ 60))) := by
  have hreq : (run [Op.request "/a" "GET" 200 none 1 0 false "a" 0,
      Op.request "/a" "GET" 200 none 1 0 false "b" 90]).requestTimes
        = [(0 : ℚ), 90] := by decide
  refine (C8_amended_rps
    (run [Op.request "/a" "GET" 200 none 1 0 false "a" 0,
          Op.request "/a" "GET" 200 none 1 0 false "b" 90]) 100).2.2.2 ?_ ?_ ?_
  · rw [hreq]; decide
  · rw [hreq]; norm_num [List.filter_cons]
  · rw [hreq]; norm_num [List.filter_cons, listMin]

/-- C9: `get_recent_latencies` maps an empty TTFT window to an empty TTFT
table and an empty TTCT window to an empty TTCT table, never raising; on a
fresh collector both tables are empty; a nonempty window yields the table of
mean, median, p90, p95, min and max of the samples currently in it. -/
theorem C9_latency_tables (s : CollectorState) :
    (s.recentTtfts = [] → (getRecentLatencies s).1 = none) ∧
    (s.recentTtcts = [] → (getRecentLatencies s).2 = none) ∧
    (s.recentTtfts ≠ [] → (getRecentLatencies s).1 = some (latencyStats s.recentTtfts)) ∧
    (s.recentTtcts ≠ [] → (getRecentLatencies s).2 = some (latencyStats s.recentTtcts)) ∧
    getRecentLatencies initState = (none, none) := by
  refine ⟨fun h => ?_, fun h => ?_, fun h => ?_, fun h => ?_, rfl⟩ <;>
    simp [getRecentLatencies, List.isEmpty_iff, h]

/-- Witness for C9 at a fresh collector and after one stream completion. -/
theorem C9_witness :
    (getRecentLatencies initState).1 = none ∧
    (getRecentLatencies (run [Op.streamCompletion "/c" 200 1 2 5 "r" 0])).1
      = some (latencyStats (run [Op.streamCompletion "/c" 200 1 2 5 "r" 0]).recentTtfts) :=
  ⟨(C9_latency_tables initState).1 rfl,
   (C9_latency_tables (run [Op.streamCompletion "/c" 200 1 2 5 "r" 0])).2.2.1
     (by decide)⟩

/-- C10: `record_stream_completion` never changes the total-request counter:
after any run the `total_requests` field of the session snapshot equals the
number of `record_request` calls made, so a streaming call reported only via
`record_stream_completion` contributes to the success/failure tallies and the
token total but not to `total_requests`, and the tallies can exceed it. -/
theorem C10_total_requests_counts_record_request_only :
    (∀ ops : List Op, (run ops).totalRequestCount = (ops.filter Op.isRequest).length) ∧
    (∀ (ops : List Op) (u : ℕ),
      (getSessionMetrics (run ops) u).totalRequests = (ops.filter Op.isRequest).length) ∧
    (∀ (s : CollectorState) (e : String) (sc : ℤ) (ttft ttct : ℚ) (tk : ℕ)
        (rid : String) (ts : ℚ),
      (recordStreamCompletion s e sc ttft ttct tk rid ts).totalRequestCount =
        s.totalRequestCount) ∧
    ((run [Op.streamCompletion "/chat" 200 1 2 5 "r1" 0]).successCount +
        (run [Op.streamCompletion "/chat" 200 1 2 5 "r1" 0]).failureCount = 1 ∧
      (run [Op.streamCompletion "/chat" 200 1 2 5 "r1" 0]).totalRequestCount = 0) := by
  have hrun : ∀ ops : List Op,
      (run ops).totalRequestCount = (ops.filter Op.isRequest).length := by
    intro ops
    have h := runFrom_totalRequestCount ops initState
    rw [run, h]
    simp [initState]
  exact ⟨hrun, fun ops u => hrun ops,
    fun s e sc ttft ttct tk rid ts =>
      recordStreamCompletion_totalRequestCount s e sc ttft ttct tk rid ts,
    by decide, by decide⟩

end ApiTest
